import Mathlib

/-!
Shallow embedding of the coordinate-normalization and validation core of
`geojson/geometry.py` (module `geojson.geometry`).

Modelling conventions:
* Python values that can reach the coordinate-handling code are modelled by
  the inductive type `PyVal`: numbers (`int`, `float`, `decimal.Decimal`,
  all modelled as rationals — no claim depends on floating-point rounding),
  booleans, strings, `None`, lists, tuples, and `Geometry` instances.
* A `Geometry` instance is a dict subclass (per the specification the base
  object has "ordered string-keyed mapping behavior"), so it is modelled as
  its class tag (`GKind`) together with its ordered list of string-keyed
  entries.  Iterating a `Geometry` yields its keys, as for any Python dict.
* Python's `bool` is a subclass of `int`, so `isinstance(True, (float, int,
  Decimal))` holds; `isJSONCompliant` reflects this.
* Exceptions (`ValueError`, `TypeError` from `len`/iteration/indexing,
  `KeyError` from missing dict keys) are modelled by the `Except PyErr`
  result type.
-/

/-- Class tag of a concrete `Geometry` subclass from `geojson/geometry.py`.
`GeometryCollection` is not among them: it derives from `GeoJSON` directly,
not from `Geometry`. -/
inductive GKind where
  | point
  | multiPoint
  | lineString
  | multiLineString
  | polygon
  | multiPolygon
deriving DecidableEq, Repr

/-- A Python value as seen by the coordinate-handling code. -/
inductive PyVal where
  | num (q : ℚ)
  | boolean (b : Bool)
  | str (s : String)
  | pyNone
  | list (xs : List PyVal)
  | tuple (xs : List PyVal)
  | geometry (kind : GKind) (entries : List (String × PyVal))
deriving Repr

/-- A raised Python exception, as far as the modelled code distinguishes
them: `ValueError` (carrying the offending value, as the source interpolates
it into the message `"%r is not a JSON compliant number"`), `TypeError`
(`len()` of an unsized value, iteration of a non-iterable, indexing a
non-indexable or out of range), and `KeyError` (missing dict key). -/
inductive PyErr where
  | valueError (v : PyVal)
  | typeError
  | keyError
deriving Repr

/-- Lookup of a string key in an ordered entry list (Python `d[k]` on a
dict, minus the `KeyError`, which the callers handle). -/
def lookupEntry (k : String) : List (String × PyVal) → Option PyVal
  | [] => none
  | kv :: rest => if kv.1 = k then some kv.2 else lookupEntry k rest

/-- `isinstance(v, Point)`. -/
def isPointInstance : PyVal → Bool
  | .geometry .point _ => true
  | _ => false

/-- `isinstance(v, Geometry)`: every concrete geometry class in the module
derives from `Geometry`. -/
def isGeometryInstance : PyVal → Bool
  | .geometry _ _ => true
  | _ => false

/-- `isinstance(v, list)`. -/
def isList : PyVal → Bool
  | .list _ => true
  | _ => false

/-- `isinstance(v, (list, tuple))`. -/
def isSeq : PyVal → Bool
  | .list _ => true
  | .tuple _ => true
  | _ => false

/-- `isinstance(v, _JSON_compliant_types)` where `_JSON_compliant_types =
(float, int, Decimal)` (Python 3 branch of the source).  Python's `bool` is
a subclass of `int`, so booleans pass this test. -/
def isJSONCompliant : PyVal → Bool
  | .num _ => true
  | .boolean _ => true
  | _ => false

/-- The one-character strings produced by iterating a Python string. -/
def strChars (s : String) : List PyVal :=
  s.data.map fun c => .str (String.mk [c])

/-- Python iteration `for x in v`: lists and tuples yield their elements,
strings their characters, dicts (hence `Geometry` instances) their keys in
order; other values are not iterable (`TypeError`). -/
def pyIter : PyVal → Option (List PyVal)
  | .list xs => some xs
  | .tuple xs => some xs
  | .str s => some (strChars s)
  | .geometry _ entries => some (entries.map fun kv => .str kv.1)
  | _ => none

/-- Python `len(v)`: `none` models the `TypeError` raised on unsized
values. -/
def pyLen : PyVal → Option Nat
  | .list xs => some xs.length
  | .tuple xs => some xs.length
  | .str s => some s.length
  | .geometry _ entries => some entries.length
  | _ => none

/-- Python `v[0]`: `none` models the exception (`TypeError` on
non-indexable values, `IndexError` on empty sequences, `KeyError` on dicts,
whose keys here are strings, never `0`). -/
def pyFirst : PyVal → Option PyVal
  | .list (x :: _) => some x
  | .tuple (x :: _) => some x
  | .str ⟨c :: _⟩ => some (.str (String.mk [c]))
  | _ => none

/-- Python `v[-1]`, with the same exception conventions as `pyFirst`. -/
def pyLast : PyVal → Option PyVal
  | .list xs => (xs.getLast?).map id
  | .tuple xs => (xs.getLast?).map id
  | .str s => (s.data.getLast?).map fun c => .str (String.mk [c])
  | _ => none

mutual

/-- Python `==` on the modelled values: numeric comparison identifies
`int`/`float`/`Decimal` (and booleans, which equal `1`/`0`); lists compare
elementwise with lists only, tuples with tuples only; dicts compare as
key-value mappings.  (Dicts have unique keys, so equal entry counts plus
agreement of every first-dict entry inside the second dict is two-sided
mapping equality.) -/
def pyEq : PyVal → PyVal → Bool
  | .num a, .num b => decide (a = b)
  | .num a, .boolean b => decide (a = (if b then (1 : ℚ) else 0))
  | .boolean a, .num b => decide ((if a then (1 : ℚ) else 0) = b)
  | .boolean a, .boolean b => a == b
  | .str a, .str b => a == b
  | .pyNone, .pyNone => true
  | .list as, .list bs => pyEqList as bs
  | .tuple as, .tuple bs => pyEqList as bs
  | .geometry _ e1, .geometry _ e2 => e1.length == e2.length && entriesAgree e1 e2
  | _, _ => false
termination_by v _ => sizeOf v

/-- Elementwise Python `==` on sequences. -/
def pyEqList : List PyVal → List PyVal → Bool
  | [], [] => true
  | a :: as, b :: bs => pyEq a b && pyEqList as bs
  | _, _ => false
termination_by l _ => sizeOf l

/-- Every entry of the first dict is present, with a `==`-equal value, in
the second. -/
def entriesAgree : List (String × PyVal) → List (String × PyVal) → Bool
  | [], _ => true
  | (k, v) :: rest, e2 =>
    (match lookupEntry k e2 with
     | some w => pyEq v w
     | none => false) && entriesAgree rest e2
termination_by l _ => sizeOf l

end

/-- The element loop of `Geometry.clean_coordinates`: for each `coord` of
the iterated input, a list or tuple is recursively cleaned (the recursive
call `cls.clean_coordinates(coord)` on a list or tuple performs no `Point`
pre-pass and iterates the elements, so it coincides with this loop), a
`Geometry` contributes its stored `coord['coordinates']` verbatim, a value
passing the `_JSON_compliant_types` test is kept unchanged, and anything
else raises `ValueError("%r is not a JSON compliant number")`. -/
def cleanElems : List PyVal → Except PyErr (List PyVal)
  | [] => .ok []
  | coord :: rest =>
    match coord with
    | .list xs =>
      (cleanElems xs).bind fun sub => (cleanElems rest).map fun others => .list sub :: others
    | .tuple xs =>
      (cleanElems xs).bind fun sub => (cleanElems rest).map fun others => .list sub :: others
    | .geometry _ entries =>
      match lookupEntry "coordinates" entries with
      | some v => (cleanElems rest).map fun others => v :: others
      | none => .error .keyError
    | .num q => (cleanElems rest).map fun others => .num q :: others
    | .boolean b => (cleanElems rest).map fun others => .boolean b :: others
    | v => .error (.valueError v)

/-- `Geometry.clean_coordinates(coords)`: starts `new_coords` with `coords`
itself when `isinstance(coords, Point)`, then iterates `coords` (raising
`TypeError` on non-iterables) and appends the cleaned elements. -/
def clean_coordinates (coords : PyVal) : Except PyErr (List PyVal) :=
  let pre : List PyVal := if isPointInstance coords then [coords] else []
  match pyIter coords with
  | none => .error .typeError
  | some elems => (cleanElems elems).map fun cleaned => pre ++ cleaned

/-- The element loop of `check_point`: `for num in coord: if not
isinstance(num, _JSON_compliant_types): return "each value in a position
must be a number"`. -/
def firstBadNum : List PyVal → Option String
  | [] => none
  | n :: ns =>
    if isJSONCompliant n then firstBadNum ns
    else some "each value in a position must be a number"

/-- `check_point(coord)` from `geojson/geometry.py`: a position must be a
list, of exactly 2 or 3 values, each a JSON-compliant number, the checks
made in that order.  The function is total: it indexes nothing and takes
`len` only of a value already known to be a list. -/
def check_point (coord : PyVal) : Option String :=
  match coord with
  | .list nums =>
    if nums.length = 2 || nums.length = 3 then firstBadNum nums
    else some "a position must have exactly 2 or 3 values"
  | _ => some "each position must be a list"

/-- The element loop of `check_line_string`: `error = check_point(pos); if
error: return error` — the first truthy (non-`None`, non-empty) message is
returned. -/
def firstPosError : List PyVal → Option String
  | [] => none
  | p :: ps =>
    match check_point p with
    | some e => if e.isEmpty then firstPosError ps else some e
    | none => firstPosError ps

/-- `check_line_string(coord)`: a line must be a list of at least two
positions, each passing `check_point`; checked in that order, and total for
the same reason as `check_point`. -/
def check_line_string (coord : PyVal) : Option String :=
  match coord with
  | .list positions =>
    if positions.length < 2 then
      some "the \"coordinates\" member must be an array of two or more positions"
    else firstPosError positions
  | _ => some "each line must be a list of positions"

/-- `all(len(elem) >= 4 for elem in coord)`: the generator is consumed
lazily, so `all` stops at the first ring shorter than 4 — but `len(elem)`
raises `TypeError` when an element reached before that is unsized. -/
def allLengths : List PyVal → Except PyErr Bool
  | [] => .ok true
  | e :: es =>
    match pyLen e with
    | none => .error .typeError
    | some n => if 4 ≤ n then allLengths es else .ok false

/-- `all(elem[0] == elem[-1] for elem in coord)`: stops at the first ring
whose endpoints differ; `elem[0]`/`elem[-1]` raise on non-indexable or
empty elements reached before that. -/
def allRings : List PyVal → Except PyErr Bool
  | [] => .ok true
  | e :: es =>
    match pyFirst e, pyLast e with
    | some a, some b => if pyEq a b then allRings es else .ok false
    | _, _ => .error .typeError

/-- `check_polygon(coord)`: evaluates `lengths = all(len(elem) >= 4 ...)`
and returns the length message if it is `False`; only then evaluates
`isring = all(elem[0] == elem[-1] ...)` and returns the closure message if
that is `False`.  Unlike `check_point`, this function can raise: `len` and
indexing are applied to arbitrary ring candidates. -/
def check_polygon (coord : PyVal) : Except PyErr (Option String) :=
  match pyIter coord with
  | none => .error .typeError
  | some elems =>
    (allLengths elems).bind fun lengths =>
      if lengths = false then
        .ok (some "LinearRing must contain with 4 or more positions")
      else
        (allRings elems).bind fun isring =>
          if isring = false then
            .ok (some "The first and last positions in LinearRing must be equivalent")
          else .ok none

/-- Modelled from the spec: the scan inside `check_list_errors`, which is
defined on the `GeoJSON` base class whose module is not among the provided
sources.  Per the spec it "applies a given per-element check function
across a sequence and returns the first non-empty result encountered
(order-preserving scan, stops at first error)".  An exception raised by
the check function propagates. -/
def check_list_scan (checkFunc : PyVal → Except PyErr (Option String)) :
    List PyVal → Except PyErr (Option String)
  | [] => .ok none
  | x :: xs =>
    match checkFunc x with
    | .error e => .error e
    | .ok (some s) => if s.isEmpty then check_list_scan checkFunc xs else .ok (some s)
    | .ok none => check_list_scan checkFunc xs

/-- Modelled from the spec: `self.check_list_errors(checkFunc, lst)` from
the `GeoJSON` base class (module not under the provided sources), applied
by `MultiPoint.errors`, `MultiLineString.errors` and `MultiPolygon.errors`
to the stored coordinate list. -/
def check_list_errors (checkFunc : PyVal → Except PyErr (Option String))
    (lst : PyVal) : Except PyErr (Option String) :=
  match pyIter lst with
  | none => .error .typeError
  | some elems => check_list_scan checkFunc elems

/-- The `errors()` method of a concrete geometry instance: each subclass
dispatches its kind's check function on `self['coordinates']` (a missing
key raises `KeyError`).  `Point.errors` calls `check_point`,
`LineString.errors` calls `check_line_string`, `Polygon.errors` calls
`check_polygon`, and the `Multi*` classes delegate through
`check_list_errors`. -/
def geom_errors (kind : GKind) (entries : List (String × PyVal)) :
    Except PyErr (Option String) :=
  match lookupEntry "coordinates" entries with
  | none => .error .keyError
  | some coords =>
    match kind with
    | .point => .ok (check_point coords)
    | .multiPoint => check_list_errors (fun v => .ok (check_point v)) coords
    | .lineString => .ok (check_line_string coords)
    | .multiLineString => check_list_errors (fun v => .ok (check_line_string v)) coords
    | .polygon => check_polygon coords
    | .multiPolygon => check_list_errors check_polygon coords

/-- `geom.errors()` on a collection member: only geometry instances expose
the method (anything else raises an `AttributeError`-like failure). -/
def member_errors : PyVal → Except PyErr (Option String)
  | .geometry kind entries => geom_errors kind entries
  | _ => .error .typeError

/-- The comprehension `[geom.errors() for geom in self['geometries']]`:
every member's `errors()` is evaluated, in order; a raised exception
propagates. -/
def collectMemberErrors : List PyVal → Except PyErr (List (Option String))
  | [] => .ok []
  | g :: gs =>
    match member_errors g with
    | .error e => .error e
    | .ok r => (collectMemberErrors gs).map fun rest => r :: rest

/-- `GeometryCollection.errors()`: gathers every member's `errors()` result
and keeps the truthy ones — `[err for err in errors if err]` — preserving
member order. -/
def geometryCollection_errors (geometries : List PyVal) :
    Except PyErr (List String) :=
  (collectMemberErrors geometries).map fun errs =>
    errs.filterMap fun e =>
      match e with
      | some s => if s.isEmpty then none else some s
      | none => none

/-- Number as the specification defines it (section 3): a value of the
JSON-compliant numeric domain, "Not a string, not a boolean".  This is the
spec-side counterpart of the source's `isJSONCompliant` test, for comparing
the two. -/
def isNumber_spec : PyVal → Bool
  | .num _ => true
  | _ => false

mutual

/-- An already-canonical coordinate tree in the specification's sense: a
nested list whose leaves are Numbers. -/
def isCanonical : PyVal → Bool
  | .num _ => true
  | .list xs => canonicalList xs
  | _ => false

/-- Every element of the list is canonical. -/
def canonicalList : List PyVal → Bool
  | [] => true
  | x :: xs => isCanonical x && canonicalList xs

end

mutual

/-- Every leaf of the value, through list and tuple nesting, passes the
source's `_JSON_compliant_types` test; any other non-sequence value
(including an embedded geometry object) is a failing leaf. -/
def leavesJSONCompliant : PyVal → Bool
  | .list xs => leavesListOK xs
  | .tuple xs => leavesListOK xs
  | v => isJSONCompliant v

/-- Every element of the list has only JSON-compliant leaves. -/
def leavesListOK : List PyVal → Bool
  | [] => true
  | x :: xs => leavesJSONCompliant x && leavesListOK xs

end

mutual

/-- Every geometry object embedded in the value stores, under
`"coordinates"`, a tree whose leaves all pass the JSON-compliant test —
the situation produced by `Geometry.__init__`, which stores only cleaned
coordinates. -/
def geomsClean : PyVal → Bool
  | .list xs => geomsCleanList xs
  | .tuple xs => geomsCleanList xs
  | .geometry _ entries =>
    match lookupEntry "coordinates" entries with
    | some c => leavesJSONCompliant c
    | none => false
  | _ => true

/-- Every element of the list satisfies `geomsClean`. -/
def geomsCleanList : List PyVal → Bool
  | [] => true
  | x :: xs => geomsClean x && geomsCleanList xs

end

/-- The property `len(elem) >= 4` tested by `check_polygon`'s first pass
(false also when `len` would raise). -/
def ringLenOK (e : PyVal) : Bool :=
  match pyLen e with
  | some n => 4 ≤ n
  | none => false

/-- The property `elem[0] == elem[-1]` tested by `check_polygon`'s second
pass (false also when indexing would raise). -/
def ringClosed (e : PyVal) : Bool :=
  match pyFirst e, pyLast e with
  | some a, some b => pyEq a b
  | _, _ => false

theorem cleanElems_canonical (xs : List PyVal) (h : canonicalList xs = true) :
    cleanElems xs = Except.ok xs := by
  induction xs using cleanElems.induct with
  | case1 => simp [cleanElems]
  | case2 rest ys ih1 ih2 =>
    simp only [canonicalList, isCanonical, Bool.and_eq_true] at h
    simp [cleanElems, ih1 h.1, ih2 h.2, Except.bind, Except.map]
  | case3 rest ys ih1 ih2 => simp [canonicalList, isCanonical] at h
  | case4 rest kind entries w hw ih => simp [canonicalList, isCanonical] at h
  | case5 rest kind entries hw => simp [canonicalList, isCanonical] at h
  | case6 rest q ih =>
    simp only [canonicalList, isCanonical, Bool.true_and] at h
    simp [cleanElems, ih h, Except.map]
  | case7 rest b ih => simp [canonicalList, isCanonical] at h
  | case8 rest v hl ht hg hn hb =>
    exfalso
    simp only [canonicalList, Bool.and_eq_true] at h
    cases v with
    | num q => exact hn q rfl
    | list ys => exact hl ys rfl
    | boolean b => simp [isCanonical] at h
    | str s => simp [isCanonical] at h
    | pyNone => simp [isCanonical] at h
    | tuple ys => exact ht ys rfl
    | geometry kind entries => exact hg kind entries rfl

theorem cleanElems_leaves (xs : List PyVal) (hg : geomsCleanList xs = true) :
    ∀ r, cleanElems xs = Except.ok r → leavesListOK r = true := by
  induction xs using cleanElems.induct with
  | case1 =>
    intro r hr
    simp only [cleanElems] at hr
    cases hr
    simp [leavesListOK]
  | case2 rest ys ih1 ih2 =>
    intro r hr
    simp only [geomsCleanList, geomsClean, Bool.and_eq_true] at hg
    simp only [cleanElems] at hr
    cases hys : cleanElems ys with
    | error e => simp [hys, Except.bind] at hr
    | ok sub =>
      cases hrest : cleanElems rest with
      | error e => simp [hys, hrest, Except.bind, Except.map] at hr
      | ok others =>
        simp only [hys, hrest, Except.bind, Except.map, Except.ok.injEq] at hr
        subst hr
        simp [leavesListOK, leavesJSONCompliant, ih1 hg.1 sub hys, ih2 hg.2 others hrest]
  | case3 rest ys ih1 ih2 =>
    intro r hr
    simp only [geomsCleanList, geomsClean, Bool.and_eq_true] at hg
    simp only [cleanElems] at hr
    cases hys : cleanElems ys with
    | error e => simp [hys, Except.bind] at hr
    | ok sub =>
      cases hrest : cleanElems rest with
      | error e => simp [hys, hrest, Except.bind, Except.map] at hr
      | ok others =>
        simp only [hys, hrest, Except.bind, Except.map, Except.ok.injEq] at hr
        subst hr
        simp [leavesListOK, leavesJSONCompliant, ih1 hg.1 sub hys, ih2 hg.2 others hrest]
  | case4 rest kind entries w hw ih =>
    intro r hr
    simp only [geomsCleanList, geomsClean, hw, Bool.and_eq_true] at hg
    simp only [cleanElems, hw] at hr
    cases hrest : cleanElems rest with
    | error e => simp [hrest, Except.map] at hr
    | ok others =>
      simp only [hrest, Except.map, Except.ok.injEq] at hr
      subst hr
      simp [leavesListOK, hg.1, ih hg.2 others hrest]
  | case5 rest kind entries hw =>
    intro r hr
    simp [cleanElems, hw] at hr
  | case6 rest q ih =>
    intro r hr
    simp only [geomsCleanList, geomsClean, Bool.true_and] at hg
    simp only [cleanElems] at hr
    cases hrest : cleanElems rest with
    | error e => simp [hrest, Except.map] at hr
    | ok others =>
      simp only [hrest, Except.map, Except.ok.injEq] at hr
      subst hr
      simp [leavesListOK, leavesJSONCompliant, isJSONCompliant, ih hg others hrest]
  | case7 rest b ih =>
    intro r hr
    simp only [geomsCleanList, geomsClean, Bool.true_and] at hg
    simp only [cleanElems] at hr
    cases hrest : cleanElems rest with
    | error e => simp [hrest, Except.map] at hr
    | ok others =>
      simp only [hrest, Except.map, Except.ok.injEq] at hr
      subst hr
      simp [leavesListOK, leavesJSONCompliant, isJSONCompliant, ih hg others hrest]
  | case8 rest v hl ht hg2 hn hb =>
    intro r hr
    cases v with
    | num q => exact absurd rfl (hn q)
    | list ys => exact absurd rfl (hl ys)
    | tuple ys => exact absurd rfl (ht ys)
    | geometry kind entries => exact absurd rfl (hg2 kind entries)
    | boolean b => exact absurd rfl (hb b)
    | str s => simp [cleanElems] at hr
    | pyNone => simp [cleanElems] at hr

theorem allLengths_eq (xs : List PyVal) (h : xs.all isList = true) :
    allLengths xs = Except.ok (xs.all ringLenOK) := by
  induction xs with
  | nil => rfl
  | cons x rest ih =>
    simp only [List.all_cons, Bool.and_eq_true] at h
    cases x with
    | list ys =>
      simp only [allLengths, pyLen, List.all_cons, ringLenOK]
      by_cases hlen : 4 ≤ ys.length
      · simp [hlen, ih h.2]
      · simp [hlen]
    | num q => simp [isList] at h
    | boolean b => simp [isList] at h
    | str s => simp [isList] at h
    | pyNone => simp [isList] at h
    | tuple ys => simp [isList] at h
    | geometry kind entries => simp [isList] at h

theorem allRings_eq (xs : List PyVal) (h : xs.all isList = true)
    (h4 : xs.all ringLenOK = true) :
    allRings xs = Except.ok (xs.all ringClosed) := by
  induction xs with
  | nil => rfl
  | cons x rest ih =>
    simp only [List.all_cons, Bool.and_eq_true] at h h4
    cases x with
    | list ys =>
      have hne : ys ≠ [] := by
        intro hnil
        rw [hnil] at h4
        simp [ringLenOK, pyLen] at h4
      obtain ⟨a, tl, rfl⟩ := List.exists_cons_of_ne_nil hne
      have hb := List.getLast?_eq_getLast_of_ne_nil (List.cons_ne_nil a tl)
      simp only [allRings, pyFirst, pyLast, Option.map_id, hb, List.all_cons, ringClosed]
      by_cases heq : pyEq a ((a :: tl).getLast (List.cons_ne_nil a tl)) = true
      · simp [heq, ih h.2 h4.2]
      · simp only [Bool.not_eq_true] at heq
        simp [heq]
    | num q => simp [isList] at h
    | boolean b => simp [isList] at h
    | str s => simp [isList] at h
    | pyNone => simp [isList] at h
    | tuple ys => simp [isList] at h
    | geometry kind entries => simp [isList] at h

/-- The `errors()` result of a member whose call returns (rather than
raises), as an optional message. -/
def memberResult (g : PyVal) : Option String :=
  match member_errors g with
  | .ok r => r
  | .error _ => none

/-- The truthy error string a member contributes to the collection's
aggregate, if any. -/
def memberErrString (g : PyVal) : Option String :=
  match memberResult g with
  | some s => if s.isEmpty then none else some s
  | none => none

theorem gc_errors_eq (gs : List PyVal)
    (h : ∀ g ∈ gs, ∃ r, member_errors g = Except.ok r) :
    geometryCollection_errors gs = Except.ok (gs.filterMap memberErrString) := by
  induction gs with
  | nil => rfl
  | cons g rest ih =>
    obtain ⟨r, hr⟩ := h g (List.mem_cons_self g rest)
    have hrest := ih fun g' hg' => h g' (List.mem_cons_of_mem g hg')
    simp only [geometryCollection_errors] at hrest ⊢
    cases hc : collectMemberErrors rest with
    | error e => rw [hc] at hrest; simp [Except.map] at hrest
    | ok lst =>
      rw [hc] at hrest
      simp only [Except.map, Except.ok.injEq] at hrest
      simp only [collectMemberErrors, hr, hc, Except.map, Except.ok.injEq,
        List.filterMap_cons]
      simp only [memberErrString, memberResult, hr]
      cases r with
      | none => simpa using hrest
      | some s =>
        by_cases hs : s.isEmpty
        · simpa [hs] using hrest
        · simpa [hs] using hrest

/-- Claim C10: the Polygon validator accepts the empty coordinate tree —
`check_polygon([])` returns no error (both `all(...)` passes are vacuously
true), so a Polygon with zero rings validates cleanly. -/
theorem checkPolygonEmptyValid :
    check_polygon (.list []) = Except.ok none ∧
    geom_errors .polygon [("coordinates", .list [])] = Except.ok none :=
  ⟨rfl, rfl⟩

/-- Claim C2, amended: `check_polygon` returns normally (with an optional
message, never an exception) on every input list whose elements are all
lists; on other ill-shaped trees it can raise a `TypeError`. -/
theorem checkPolygonTotalOnRingLists (xs : List PyVal)
    (h : xs.all isList = true) :
    ∃ r, check_polygon (.list xs) = Except.ok r := by
  have h1 := allLengths_eq xs h
  cases hlen : xs.all ringLenOK with
  | false =>
    refine ⟨some "LinearRing must contain with 4 or more positions", ?_⟩
    rw [hlen] at h1
    simp [check_polygon, pyIter, h1, Except.bind]
  | true =>
    rw [hlen] at h1
    have h2 := allRings_eq xs h hlen
    cases hcl : xs.all ringClosed with
    | false =>
      refine ⟨some "The first and last positions in LinearRing must be equivalent", ?_⟩
      rw [hcl] at h2
      simp [check_polygon, pyIter, h1, h2, Except.bind]
    | true =>
      refine ⟨none, ?_⟩
      rw [hcl] at h2
      simp [check_polygon, pyIter, h1, h2, Except.bind]

/-- Witness for `checkPolygonTotalOnRingLists` at a concrete ill-shaped
ring list. -/
theorem checkPolygonTotalOnRingLists_witness :
    ∃ r, check_polygon (.list [.list [.num 1]]) = Except.ok r :=
  checkPolygonTotalOnRingLists [.list [.num 1]] rfl

/-- Counterexample to claim C2 as stated: `check_polygon([1])` does not
return normally — `len(1)` raises a `TypeError`. -/
theorem checkPolygonRaisesOnNumberElement :
    check_polygon (.list [.num 1]) = Except.error .typeError := rfl

/-- Claim C3: `check_polygon` checks ring lengths first and returns the
length error without ever checking closure when some ring is short; only
when every ring has length at least 4 does it compare first and last
positions by value equality; a closed ring of length 4 yields no error. -/
theorem checkPolygonOrder (xs : List PyVal) (h : xs.all isList = true) :
    (xs.all ringLenOK = false →
      check_polygon (.list xs) =
        Except.ok (some "LinearRing must contain with 4 or more positions")) ∧
    (xs.all ringLenOK = true → xs.all ringClosed = false →
      check_polygon (.list xs) =
        Except.ok (some "The first and last positions in LinearRing must be equivalent")) ∧
    (xs.all ringLenOK = true → xs.all ringClosed = true →
      check_polygon (.list xs) = Except.ok none) ∧
    check_polygon (.list [.list [.list [.num 0, .num 0], .list [.num 1, .num 0],
        .list [.num 1, .num 1], .list [.num 0, .num 0]]]) = Except.ok none := by
  refine ⟨?_, ?_, ?_, ?_⟩
  · intro hlen
    have h1 := allLengths_eq xs h
    rw [hlen] at h1
    simp [check_polygon, pyIter, h1, Except.bind]
  · intro hlen hcl
    have h1 := allLengths_eq xs h
    rw [hlen] at h1
    have h2 := allRings_eq xs h hlen
    rw [hcl] at h2
    simp [check_polygon, pyIter, h1, h2, Except.bind]
  · intro hlen hcl
    have h1 := allLengths_eq xs h
    rw [hlen] at h1
    have h2 := allRings_eq xs h hlen
    rw [hcl] at h2
    simp [check_polygon, pyIter, h1, h2, Except.bind]
  · simp [check_polygon, pyIter, allLengths, allRings, pyLen, pyFirst, pyLast,
      pyEq, pyEqList, Except.bind, List.getLast?_cons_cons, List.getLast?_singleton]

/-- Witness for `checkPolygonOrder` at a one-ring list that is too
short. -/
theorem checkPolygonOrder_witness :
    check_polygon (.list [.list [.list [.num 0, .num 0], .list [.num 1, .num 0]]]) =
      Except.ok (some "LinearRing must contain with 4 or more positions") :=
  (checkPolygonOrder [.list [.list [.num 0, .num 0], .list [.num 1, .num 0]]] rfl).1 rfl

/-- Claim C5: the Position check tests list-ness, then arity (exactly 2 or
3), then element numericity in that order, and the Point examples from the
spec validate accordingly. -/
theorem checkPointOrder :
    (∀ v : PyVal, isList v = false →
      check_point v = some "each position must be a list") ∧
    (∀ xs : List PyVal, xs.length ≠ 2 → xs.length ≠ 3 →
      check_point (.list xs) = some "a position must have exactly 2 or 3 values") ∧
    (∀ xs : List PyVal, xs.length = 2 ∨ xs.length = 3 →
      check_point (.list xs) = firstBadNum xs) ∧
    check_point (.list [.num 1, .num 2]) = none ∧
    check_point (.list [.num 1, .num 2, .num 3]) = none ∧
    check_point (.list [.num 1]) = some "a position must have exactly 2 or 3 values" ∧
    check_point (.list [.num 1, .num 2, .num 3, .num 4]) =
      some "a position must have exactly 2 or 3 values" := by
  refine ⟨?_, ?_, ?_, rfl, rfl, rfl, rfl⟩
  · intro v hv
    cases v with
    | list xs => simp [isList] at hv
    | num q => rfl
    | boolean b => rfl
    | str s => rfl
    | pyNone => rfl
    | tuple xs => rfl
    | geometry kind entries => rfl
  · intro xs h2 h3
    have hb : (xs.length = 2 || xs.length = 3) = false := by simp [h2, h3]
    simp [check_point, hb]
  · intro xs h23
    have hb : (xs.length = 2 || xs.length = 3) = true := by
      rcases h23 with h | h <;> simp [h]
    simp [check_point, hb]

/-- Witness for `checkPointOrder` at the empty position. -/
theorem checkPointOrder_witness :
    check_point (.list []) = some "a position must have exactly 2 or 3 values" :=
  checkPointOrder.2.1 [] (by decide) (by decide)

/-- Claim C1, amended: when `clean_coordinates` succeeds on a raw input
that is not itself a `Point` instance and whose embedded geometry objects
store already-compliant coordinate trees, every leaf of the returned tree
passes the source's JSON-compliant-type test (which admits booleans as
well as numbers, `bool` being an `int` subclass); a `Point` instance given
as the raw input is appended as-is and the call then fails while iterating
the `Point`'s string keys, so no tree is returned in that case. -/
theorem cleanCoordinatesLeavesCompliant (v : PyVal)
    (hp : isPointInstance v = false) (hg : geomsClean v = true)
    (r : List PyVal) (h : clean_coordinates v = Except.ok r) :
    leavesListOK r = true ∧
    ∀ (k : String) (w : PyVal) (entries : List (String × PyVal)),
      clean_coordinates (.geometry .point ((k, w) :: entries)) =
        Except.error (.valueError (.str k)) := by
  constructor
  · cases v with
    | list xs =>
      simp only [clean_coordinates, isPointInstance, pyIter, if_false,
        List.nil_append] at h
      cases hce : cleanElems xs with
      | error e => rw [hce] at h; simp [Except.map] at h
      | ok out =>
        rw [hce] at h
        simp only [Except.map, List.nil_append, Except.ok.injEq] at h
        subst h
        simp only [geomsClean] at hg
        exact cleanElems_leaves xs hg out hce
    | tuple xs =>
      simp only [clean_coordinates, isPointInstance, pyIter, if_false,
        List.nil_append] at h
      cases hce : cleanElems xs with
      | error e => rw [hce] at h; simp [Except.map] at h
      | ok out =>
        rw [hce] at h
        simp only [Except.map, List.nil_append, Except.ok.injEq] at h
        subst h
        simp only [geomsClean] at hg
        exact cleanElems_leaves xs hg out hce
    | geometry kind entries =>
      cases entries with
      | nil =>
        simp only [clean_coordinates, hp, pyIter, List.map_nil, cleanElems,
          Except.map, if_false, List.append_nil, Except.ok.injEq] at h
        subst h
        rfl
      | cons kv rest =>
        simp [clean_coordinates, hp, pyIter, cleanElems, Except.map] at h
    | str s =>
      cases s with
      | mk data =>
        cases data with
        | nil =>
          simp only [clean_coordinates, isPointInstance, pyIter, strChars,
            List.map_nil, cleanElems, Except.map, if_false, List.append_nil,
            Except.ok.injEq] at h
          subst h
          rfl
        | cons c cs =>
          simp [clean_coordinates, isPointInstance, pyIter, strChars,
            cleanElems, Except.map] at h
    | num q => simp [clean_coordinates, isPointInstance, pyIter] at h
    | boolean b => simp [clean_coordinates, isPointInstance, pyIter] at h
    | pyNone => simp [clean_coordinates, isPointInstance, pyIter] at h
  · intro k w entries
    simp [clean_coordinates, isPointInstance, pyIter, cleanElems, Except.map]

/-- Witness for `cleanCoordinatesLeavesCompliant` on an input embedding a
constructed Polygon. -/
theorem cleanCoordinatesLeavesCompliant_witness :
    leavesListOK [.num 1, .list [.num 2]] = true :=
  (cleanCoordinatesLeavesCompliant
    (.list [.num 1, .geometry .polygon [("coordinates", .list [.num 2])]])
    rfl
    (by simp [geomsClean, geomsCleanList, lookupEntry, leavesJSONCompliant,
      leavesListOK, isJSONCompliant])
    [.num 1, .list [.num 2]]
    (by simp [clean_coordinates, isPointInstance, pyIter, cleanElems,
      lookupEntry, Except.map])).1

/-- Counterexample to claim C1 as stated: cleaning succeeds on
`[1, True]`, yet the leaf `True` is not a Number in the specification's
sense (booleans are excluded from its numeric domain). -/
theorem cleanCoordinatesBooleanLeaf :
    clean_coordinates (.list [.num 1, .boolean true]) =
      Except.ok [.num 1, .boolean true] ∧
    isNumber_spec (.boolean true) = false := by
  refine ⟨?_, rfl⟩
  simp [clean_coordinates, isPointInstance, pyIter, cleanElems, Except.map]

/-- Claim C4, amended: every raw element that fails the source's
JSON-compliant-type test (numbers and booleans pass it) and is neither a
list/tuple nor a Geometry instance makes `clean_coordinates` fail with the
`ValueError` that carries the offending value; the `Except` result type
makes normalization all-or-nothing. -/
theorem cleanCoordinatesRejectsUnrecognized (v : PyVal)
    (h1 : isJSONCompliant v = false) (h2 : isSeq v = false)
    (h3 : isGeometryInstance v = false) :
    clean_coordinates (.list [v]) = Except.error (.valueError v) := by
  cases v with
  | num q => simp [isJSONCompliant] at h1
  | boolean b => simp [isJSONCompliant] at h1
  | list xs => simp [isSeq] at h2
  | tuple xs => simp [isSeq] at h2
  | geometry kind entries => simp [isGeometryInstance] at h3
  | str s => simp [clean_coordinates, isPointInstance, pyIter, cleanElems, Except.map]
  | pyNone => simp [clean_coordinates, isPointInstance, pyIter, cleanElems, Except.map]

/-- Witness for `cleanCoordinatesRejectsUnrecognized` at `None`. -/
theorem cleanCoordinatesRejectsUnrecognized_witness :
    clean_coordinates (.list [.pyNone]) = Except.error (.valueError .pyNone) :=
  cleanCoordinatesRejectsUnrecognized .pyNone rfl rfl rfl

/-- Counterexample to claim C4 as stated: `False` is not a Number in the
specification's sense, not a sequence, and not a Geometry, yet
`clean_coordinates([False])` succeeds instead of failing. -/
theorem cleanCoordinatesAcceptsBooleanFalse :
    isNumber_spec (.boolean false) = false ∧
    isSeq (.boolean false) = false ∧
    isGeometryInstance (.boolean false) = false ∧
    clean_coordinates (.list [.boolean false]) = Except.ok [.boolean false] := by
  refine ⟨rfl, rfl, rfl, ?_⟩
  simp [clean_coordinates, isPointInstance, pyIter, cleanElems, Except.map]

/-- Claim C8, amended: for every boolean `b`, `clean_coordinates([b])`
succeeds and returns `[b]` — Python's `bool` is a subclass of `int`, so it
passes the `_JSON_compliant_types` membership test. -/
theorem cleanCoordinatesAcceptsBooleans (b : Bool) :
    clean_coordinates (.list [.boolean b]) = Except.ok [.boolean b] := by
  simp [clean_coordinates, isPointInstance, pyIter, cleanElems, Except.map]

/-- Counterexample to claim C8 as stated: `clean_coordinates([True])`
returns `[True]` rather than failing, although `True` is outside the
specification's numeric domain. -/
theorem cleanCoordinatesBooleanTrueAccepted :
    isNumber_spec (.boolean true) = false ∧
    clean_coordinates (.list [.boolean true]) = Except.ok [.boolean true] := by
  refine ⟨rfl, ?_⟩
  simp [clean_coordinates, isPointInstance, pyIter, cleanElems, Except.map]

/-- Claim C9: `clean_coordinates` is the identity on canonical trees: it
returns scalar Number leaves unchanged and is idempotent on
already-canonical nested lists of Numbers. -/
theorem cleanCoordinatesCanonicalIdentity (xs : List PyVal)
    (h : canonicalList xs = true) :
    clean_coordinates (.list xs) = Except.ok xs ∧
    (∀ q : ℚ, clean_coordinates (.list [.num q]) = Except.ok [.num q]) ∧
    (∀ r, clean_coordinates (.list xs) = Except.ok r →
      clean_coordinates (.list r) = Except.ok r) := by
  have hmain : clean_coordinates (.list xs) = Except.ok xs := by
    simp [clean_coordinates, isPointInstance, pyIter,
      cleanElems_canonical xs h, Except.map]
  refine ⟨hmain, ?_, ?_⟩
  · intro q
    have hq : canonicalList [.num q] = true := by
      simp [canonicalList, isCanonical]
    simp [clean_coordinates, isPointInstance, pyIter,
      cleanElems_canonical _ hq, Except.map]
  · intro r hr
    rw [hmain] at hr
    injection hr with h'
    subst h'
    exact hmain

/-- Witness for `cleanCoordinatesCanonicalIdentity` at a small canonical
tree. -/
theorem cleanCoordinatesCanonicalIdentity_witness :
    clean_coordinates (.list [.num 1, .list [.num 2, .num 3]]) =
      Except.ok [.num 1, .list [.num 2, .num 3]] :=
  (cleanCoordinatesCanonicalIdentity [.num 1, .list [.num 2, .num 3]]
    (by simp [canonicalList, isCanonical])).1

/-- Claim C6: `GeometryCollection.errors` evaluates every member's
`errors()` (no short-circuit) and returns exactly the truthy results in
member order; a collection of one valid and one invalid Point yields the
single message of the invalid member. -/
theorem geometryCollectionAggregates (gs : List PyVal)
    (h : ∀ g ∈ gs, ∃ r, member_errors g = Except.ok r) :
    geometryCollection_errors gs = Except.ok (gs.filterMap memberErrString) ∧
    geometryCollection_errors
        [.geometry .point [("coordinates", .list [.num 1, .num 2])],
         .geometry .point [("coordinates", .list [.num 1])]] =
      Except.ok ["a position must have exactly 2 or 3 values"] :=
  ⟨gc_errors_eq gs h, rfl⟩

/-- Witness for `geometryCollectionAggregates` on a two-member
collection. -/
theorem geometryCollectionAggregates_witness :
    geometryCollection_errors
        [.geometry .point [("coordinates", .list [.num 1, .num 2])],
         .geometry .point [("coordinates",
            .list [.num 4, .num 5, .num 6, .num 7])]] =
      Except.ok
        ([.geometry .point [("coordinates", .list [.num 1, .num 2])],
          .geometry .point [("coordinates",
             .list [.num 4, .num 5, .num 6, .num 7])]].filterMap memberErrString) :=
  (geometryCollectionAggregates _ (by
    intro g hg
    rcases List.mem_cons.mp hg with rfl | hg
    · exact ⟨none, rfl⟩
    · rcases List.mem_cons.mp hg with rfl | hg
      · exact ⟨some "a position must have exactly 2 or 3 values", rfl⟩
      · cases hg)).1

/-- Claim C7: the `Multi*` validators delegate to `check_list_errors`,
which scans the coordinate list in order and returns the first non-empty
result, so when several elements are invalid the reported message is the
first failing element's.  (`check_list_errors` itself is modelled from the
spec; its module is not among the provided sources.) -/
theorem multiValidatorsFirstError :
    (∀ (ck : PyVal → Except PyErr (Option String)) (x : PyVal)
        (xs : List PyVal) (s : String),
      ck x = Except.ok (some s) → s.isEmpty = false →
      check_list_errors ck (.list (x :: xs)) = Except.ok (some s)) ∧
    (∀ (ck : PyVal → Except PyErr (Option String)) (x : PyVal)
        (xs : List PyVal),
      ck x = Except.ok none →
      check_list_errors ck (.list (x :: xs)) = check_list_errors ck (.list xs)) ∧
    (∀ (entries : List (String × PyVal)) (coords : PyVal),
      lookupEntry "coordinates" entries = some coords →
      geom_errors .multiPoint entries =
        check_list_errors (fun v => .ok (check_point v)) coords ∧
      geom_errors .multiLineString entries =
        check_list_errors (fun v => .ok (check_line_string v)) coords ∧
      geom_errors .multiPolygon entries = check_list_errors check_polygon coords) ∧
    geom_errors .multiPolygon [("coordinates", .list
        [.list [.list [.list [.num 0, .num 0]]],
         .list [.list [.list [.num 0, .num 0], .list [.num 1, .num 0],
           .list [.num 1, .num 1], .list [.num 2, .num 2]]]])] =
      Except.ok (some "LinearRing must contain with 4 or more positions") ∧
    check_polygon (.list [.list [.list [.num 0, .num 0], .list [.num 1, .num 0],
        .list [.num 1, .num 1], .list [.num 2, .num 2]]]) =
      Except.ok (some "The first and last positions in LinearRing must be equivalent") := by
  refine ⟨?_, ?_, ?_, rfl, ?_⟩
  · intro ck x xs s hck hs
    simp [check_list_errors, pyIter, check_list_scan, hck, hs]
  · intro ck x xs hck
    simp [check_list_errors, pyIter, check_list_scan, hck]
  · intro entries coords hc
    exact ⟨by simp [geom_errors, hc], by simp [geom_errors, hc], by simp [geom_errors, hc]⟩
  · simp [check_polygon, pyIter, allLengths, allRings, pyLen, pyFirst, pyLast,
      pyEq, pyEqList, Except.bind, List.getLast?_cons_cons, List.getLast?_singleton]

/-- Witness for `multiValidatorsFirstError`: the scan returns the head's
non-empty message. -/
theorem multiValidatorsFirstError_witness :
    check_list_errors (fun _ => Except.ok (some "boom")) (.list [.pyNone]) =
      Except.ok (some "boom") :=
  multiValidatorsFirstError.1 (fun _ => Except.ok (some "boom")) .pyNone [] "boom" rfl rfl

/-- Counterexample to claim C5 as stated: `check_point([1, True])` returns
no error although `True` is not a Number in the specification's sense, so
the per-element condition the code tests is not spec-Numberhood; and a
tuple input fails the first condition with the list-type message, so that
condition is list-ness, not sequence-ness. -/
theorem checkPointBooleanElementAccepted :
    check_point (.list [.num 1, .boolean true]) = none ∧
    isNumber_spec (.boolean true) = false ∧
    check_point (.tuple [.num 1, .num 2]) = some "each position must be a list" :=
  ⟨rfl, rfl, rfl⟩
